import Mathlib

/-!
Verification of the 1-D thermal-hydraulic design code in
`optimization/ht_functions.py` (CNERG/sCO2_reactor).

The Python floating-point scalars are embedded as real numbers (`ℝ`);
`math.log` is `Real.log`, `math.log x 10` is `Real.log x / Real.log 10`,
`math.sqrt` is `Real.sqrt`, a float exponent `**` is `Real.rpow`, and an
integer exponent `** (-2)` is `zpow`.  The mutable `Flow` object is a record,
each method a function from records to records; the `while` loop of
`adjust_dp` is given an explicit iteration budget and returns `none` when the
budget is exhausted with the constraint still violated.
-/

namespace SCO2

noncomputable section

/-- Smooth-tube fully developed friction factor: the explicit fit in
`ln Re` of Li, Seem and Li (ht_functions.py lines 26-28). -/
def f_fd_smooth (Re : ℝ) : ℝ :=
  (-0.001570232 / Real.log Re +
     0.394203137 / (Real.log Re) ^ 2 +
     2.534153311 / (Real.log Re) ^ 3) * 4

/-- Offor and Alabi rough-tube friction factor (ht_functions.py lines 30-36).
In the source the inner `math.log(..., 10)` is base 10 and the outer
`math.log(...)` is natural. -/
def f_fd_offor_alabi (Re relrough : ℝ) : ℝ :=
  (-2 * Real.log ((relrough / 3.71) -
      (1.975 / Re) * (Real.log ((relrough / 3.93) ^ (1.092 : ℝ) +
        (7.627 / (Re + 395.9))) / Real.log 10))) ^ (-2 : ℤ)

/-- Gnielinski turbulent Nusselt number (ht_functions.py line 39). -/
def nusselt_gnielinski (Re Pr f_fd : ℝ) : ℝ :=
  ((f_fd / 8) * (Re - 1000) * Pr) /
    (1 + 12.7 * Real.sqrt (f_fd / 8) * (Pr ^ ((2 : ℝ) / 3) - 1))

/-- Notter and Sleicher low-Prandtl turbulent Nusselt number
(ht_functions.py line 43). -/
def nusselt_low_pr (Re Pr : ℝ) : ℝ :=
  4.8 + 0.0156 * Re ^ (0.85 : ℝ) * Pr ^ (0.93 : ℝ)

/-- Developing-flow entrance correction factor (ht_functions.py lines 50-51). -/
def entrance_factor (LD : ℝ) : ℝ :=
  1 + (1 / LD) ^ (0.7 : ℝ)

/-- Fully developed turbulent friction factor (ht_functions.py lines 26-36):
the smooth fit, overridden by the Offor-Alabi correlation when the relative
roughness exceeds `1e-5`. -/
def f_fd_turbulent (Re relrough : ℝ) : ℝ :=
  if relrough > 1e-5 then f_fd_offor_alabi Re relrough else f_fd_smooth Re

/-- `pipeflow_turbulent` (ht_functions.py lines 6-53): returns `(Nusselt_L, f)`. -/
def pipeflow_turbulent (Re Pr LD relrough : ℝ) : ℝ × ℝ :=
  let f_fd := f_fd_turbulent Re relrough
  let Nusselt_G := nusselt_gnielinski Re Pr f_fd
  let Nusselt_L :=
    if Pr < 0.5 then
      let Nusselt_L_lp := nusselt_low_pr Re Pr
      if Pr < 0.1 then Nusselt_L_lp
      else Nusselt_L_lp + (Pr - 0.1) * (Nusselt_G - Nusselt_L_lp) / 0.4
    else Nusselt_G
  (Nusselt_L * entrance_factor LD, f_fd * entrance_factor LD)

/-- `pipeflow_laminar` (ht_functions.py lines 55-84): returns
`(Nusselt_T, Nusselt_H, f)`.  `relrough` is accepted but unused, and the
source's unused local `Gm` is omitted. -/
def pipeflow_laminar (Re Pr LD relrough : ℝ) : ℝ × ℝ × ℝ :=
  let Gz := Re * Pr / LD
  let x := LD / Re
  let fR := 3.44 / Real.sqrt x +
    (1.25 / (4 * x) + 16 - 3.44 / Real.sqrt x) / (1 + 0.00021 * x ^ (-2 : ℤ))
  let f := 4 * fR / Re
  let Nusselt_T := 3.66 + ((0.049 + 0.02 / Pr) * Gz ^ (1.12 : ℝ)) / (1 + 0.065 * Gz ^ (0.7 : ℝ))
  let Nusselt_H := 4.36 + ((0.1156 + 0.08569 / Pr ^ (0.4 : ℝ)) * Gz) / (1 + 0.1158 * Gz ^ (0.6 : ℝ))
  (Nusselt_T, Nusselt_H, f)

/-- `pipeflow_nd` (ht_functions.py lines 86-125): regime dispatcher, returns
`(Nusselt_T, Nusselt_H, f)`. -/
def pipeflow_nd (Re Pr LD relrough : ℝ) : ℝ × ℝ × ℝ :=
  if Re > 3000 then
    let t := pipeflow_turbulent Re Pr LD relrough
    (t.1, t.1, t.2)
  else if Re < 2300 then
    pipeflow_laminar Re Pr LD relrough
  else
    let t := pipeflow_turbulent 3000 Pr LD relrough
    let l := pipeflow_laminar 2300 Pr LD relrough
    let Nusselt_T := l.1 + (Re - 2300) / (3000 - 2300) * (t.1 - l.1)
    let Nusselt_H := l.2.1 + (Re - 2300) / (3000 - 2300) * (t.1 - l.2.1)
    let f := l.2.2 + (Re - 2300) / (3000 - 2300) * (t.2 - l.2.2)
    (Nusselt_T, Nusselt_H, f)

/-- The externally supplied flow-property object (`flowprops` in the source):
secondary-loop fluid properties and the power-cycle pressure-drop limit. -/
structure FlowProperties where
  m_dot : ℝ
  rho : ℝ
  mu : ℝ
  k_cool : ℝ
  Pr : ℝ
  T : ℝ
  dp_limit : ℝ

/-- The mutable `Flow` object (ht_functions.py lines 180-436) as a record.
Material-property dictionaries (`phys_props`, external) are flattened to the
scalar entries the methods read. -/
structure Flow where
  r_channel : ℝ
  c : ℝ
  AR : ℝ
  Q_therm : ℝ
  fuel : String
  coolant : String
  fps : FlowProperties
  k_fuel : ℝ
  T_center : ℝ
  rho_fuel : ℝ
  clad_rough : ℝ
  refl_rho : ℝ
  dT : ℝ
  fuel_frac : ℝ
  core_r : ℝ
  A_core : ℝ
  A_flow : ℝ
  A_fuel : ℝ
  L : ℝ
  LD : ℝ
  vol_fuel : ℝ
  vol_cool : ℝ
  N_channels : ℝ
  radius_cond : ℝ
  XS_A_cond : ℝ
  D_e : ℝ
  rough : ℝ
  relrough : ℝ
  v : ℝ
  Re : ℝ
  Nu : ℝ
  f : ℝ
  h_bar : ℝ
  dp : ℝ
  R_cond : ℝ
  R_conv : ℝ
  gen_Q : ℝ
  mass : ℝ

/-- `Flow.set_geom` (ht_functions.py lines 251-274). -/
def Flow.set_geom (s : Flow) : Flow :=
  let A_core := s.core_r ^ 2 * Real.pi
  let A_flow := A_core * (1 - s.fuel_frac)
  let A_fuel := A_core * s.fuel_frac
  let L := s.AR * s.core_r
  let LD := L / (s.r_channel * 2)
  let vol_fuel := A_fuel * L
  let vol_cool := A_flow * L
  let N_channels := A_flow / (s.r_channel ^ 2 * Real.pi)
  let radius_cond := Real.sqrt (A_fuel / N_channels) / 2
  let XS_A_cond := Real.pi * s.r_channel * L * 2 * N_channels
  let D_e := 2.0 * s.r_channel
  { s with
    A_core := A_core
    A_flow := A_flow
    A_fuel := A_fuel
    L := L
    LD := LD
    vol_fuel := vol_fuel
    vol_cool := vol_cool
    N_channels := N_channels
    radius_cond := radius_cond
    XS_A_cond := XS_A_cond
    D_e := D_e }

/-- `Flow.characterize_flow` (ht_functions.py lines 276-302). -/
def Flow.characterize_flow (s : Flow) : Flow :=
  let rough := s.clad_rough
  let relrough := rough / (s.r_channel * 2)
  let G_dot := s.fps.m_dot / s.A_flow
  let v := G_dot / s.fps.rho
  let Re := s.fps.rho * v * s.D_e / s.fps.mu
  let res := pipeflow_nd Re s.fps.Pr s.LD relrough
  let Nu := res.1
  let f := res.2.2
  let h_bar := Nu * s.fps.k_cool / s.D_e
  { s with
    rough := rough
    relrough := relrough
    v := v
    Re := Re
    Nu := Nu
    f := f
    h_bar := h_bar }

/-- `Flow.get_q_per_channel` (ht_functions.py lines 304-332). -/
def Flow.get_q_per_channel (s : Flow) : Flow :=
  let R_cond := s.radius_cond / (s.k_fuel * s.XS_A_cond)
  let R_conv := 1 / (s.h_bar * s.r_channel * 2 * Real.pi * s.L * s.N_channels)
  let q_trip_max := s.dT / (R_cond + R_conv)
  { s with R_cond := R_cond, R_conv := R_conv, gen_Q := q_trip_max * 2 / Real.pi }

/-- `Flow.calc_dp` (ht_functions.py lines 335-344). -/
def Flow.calc_dp (s : Flow) : Flow :=
  { s with dp := s.f * s.L * s.fps.rho * s.v * s.v / (2 * s.D_e) }

/-- `Flow.get_dp_constrained_Nchannels` (ht_functions.py lines 366-383);
`math.ceil` yields an integer, cast back to the real-valued channel count. -/
def Flow.get_dp_constrained_Nchannels (s : Flow) : ℝ :=
  let v_req := Real.sqrt (2 * s.D_e * s.fps.dp_limit / (s.f * s.L * s.fps.rho))
  (⌈s.fps.m_dot / (s.A_flow * s.fps.rho * v_req)⌉ : ℤ)

/-- One execution of the body of the `while` loop in `Flow.adjust_dp`
(ht_functions.py lines 361-364). -/
def Flow.adjust_dp_body (s : Flow) : Flow :=
  (({ s with N_channels := s.get_dp_constrained_Nchannels }).characterize_flow).calc_dp

/-- The `while dp > dp_limit` loop of `Flow.adjust_dp` with an explicit
iteration budget: `none` means the budget was exhausted with the pressure
constraint still violated (the Python loop would still be running). -/
def Flow.adjust_dp_loop : ℕ → Flow → Option Flow
  | 0, s => if s.dp > s.fps.dp_limit then none else some s
  | n + 1, s =>
    if s.dp > s.fps.dp_limit then Flow.adjust_dp_loop n s.adjust_dp_body else some s

/-- `Flow.adjust_dp` (ht_functions.py lines 346-364): `calc_dp`, then the
pressure-constraint loop, run with iteration budget `n`. -/
def Flow.adjust_dp (n : ℕ) (s : Flow) : Option Flow :=
  Flow.adjust_dp_loop n s.calc_dp

/-- The coefficient table of `Flow.constrain_radius` (ht_functions.py lines
425-432); a missing (fuel, coolant) key is a Python `KeyError`, here `none`. -/
def coeffs (fuel coolant : String) : Option (ℝ × ℝ) :=
  if fuel = "UO2" then
    if coolant = "CO2" then some (0.16271, -0.8515)
    else if coolant = "H2O" then some (0.1706, -0.61361)
    else none
  else if fuel = "UW" then
    if coolant = "CO2" then some (0.15385, -0.8309)
    else if coolant = "H2O" then some (0.16270, -0.6487)
    else none
  else none

/-- `Flow.constrain_radius` (ht_functions.py lines 421-436): sets the core
radius from the criticality power-law fit, failing on an unknown
(fuel, coolant) pair. -/
def Flow.constrain_radius (s : Flow) : Option Flow :=
  match coeffs s.fuel s.coolant with
  | none => none
  | some ab => some { s with core_r := ab.1 * s.fuel_frac ^ ab.2 }

/-- `Flow.compute_Q_from_guess` (ht_functions.py lines 385-404): one
evaluation of the minimizer objective; mutates the state and returns the
squared power error. -/
def Flow.compute_Q_from_guess (s : Flow) (inp_guess : ℝ) : Option (Flow × ℝ) :=
  match Flow.constrain_radius { s with fuel_frac := inp_guess } with
  | none => none
  | some s1 =>
    let s2 := ((s1.set_geom).characterize_flow).get_q_per_channel
    some (s2, (s2.gen_Q - s2.Q_therm) ^ 2)

/-- `Flow.calc_reactor_mass` (ht_functions.py lines 406-419). -/
def Flow.calc_reactor_mass (s : Flow) : Flow :=
  let fuel_mass := s.vol_fuel * s.rho_fuel
  let cool_mass := s.vol_cool * s.fps.rho
  let refl_mass := ((s.core_r * 1.05) ^ 2 - s.core_r ^ 2) * s.L * s.refl_rho
  { s with mass := fuel_mass + cool_mass + refl_mass }

/-- Model of the external bounded scalar minimizer (`scipy.optimize.
minimize_scalar`, out of scope per the spec): it evaluates the objective at a
finite sequence of trial fuel fractions inside its bracket, and reports a
result record whose `success` flag says whether it converged.  The mutated
`Flow` state retains the side effects of the last objective evaluation. -/
structure MinimizerRun where
  trials : List ℝ
  success : Bool

/-- Side effects on the `Flow` state of the minimizer evaluating
`_calc_n_channels_error` at each trial point in turn. -/
def run_trials : Flow → List ℝ → Option Flow
  | s, [] => some s
  | s, g :: gs =>
    match s.compute_Q_from_guess g with
    | none => none
    | some sq => run_trials sq.1 gs

/-- `find_n_channels` (ht_functions.py lines 162-177): runs the external
minimizer on `_calc_n_channels_error`; the source binds the result record to
`res` and discards it (its `success` flag in particular), returning `None`. -/
def find_n_channels (run : MinimizerRun) (s : Flow) : Option Flow :=
  run_trials s run.trials

/-- `oned_flow_modeling` (ht_functions.py lines 127-142):
`find_n_channels`, then `adjust_dp` (with iteration budget `n`), then
`calc_reactor_mass`. -/
def oned_flow_modeling (run : MinimizerRun) (n : ℕ) (s : Flow) : Option Flow :=
  match find_n_channels run s with
  | none => none
  | some s1 =>
    match s1.adjust_dp n with
    | none => none
    | some s2 => some s2.calc_reactor_mass

/-- A concrete, fully specified `Flow` state for instantiating theorems: the
test-suite configuration (test_ht_functions.py lines 7-23) with unit
secondary-loop properties; derived fields start at the class-level defaults
(`0`, with `core_r = 1` and `fuel_frac = 0.75`). -/
def base_flow : Flow where
  r_channel := 1 / 200
  c := 0.00031
  AR := 1
  Q_therm := 100000
  fuel := "UW"
  coolant := "CO2"
  fps := { m_dot := 1, rho := 1, mu := 1, k_cool := 1, Pr := 1, T := 900, dp_limit := 1000000 }
  k_fuel := 1
  T_center := 2000
  rho_fuel := 1
  clad_rough := 0
  refl_rho := 1
  dT := 1100
  fuel_frac := 3 / 4
  core_r := 1
  A_core := 0
  A_flow := 0
  A_fuel := 0
  L := 0
  LD := 0
  vol_fuel := 0
  vol_cool := 0
  N_channels := 0
  radius_cond := 0
  XS_A_cond := 0
  D_e := 0
  rough := 0
  relrough := 0
  v := 0
  Re := 0
  Nu := 0
  f := 0
  h_bar := 0
  dp := 0
  R_cond := 0
  R_conv := 0
  gen_Q := 0
  mass := 0

/-- A `Flow` state whose geometry and fluid properties are chosen so that
after `set_geom` and `characterize_flow` the Reynolds number is exactly 1000
(laminar branch), `LD = 4000`, and the resulting pressure drop is far above
`dp_limit`. -/
def c1_raw : Flow :=
  { base_flow with
    core_r := 1 / 10
    fuel_frac := 1 / 2
    AR := 400
    fps := { m_dot := 500 * Real.pi, rho := 1, mu := 1, k_cool := 1, Pr := 1,
             T := 900, dp_limit := 1000000 } }

/-- `c1_raw` with geometry set and `characterize_flow` run: the state on
which `adjust_dp` is entered. -/
def c1_state : Flow := (c1_raw.set_geom).characterize_flow

/-- The core radius the criticality correlation assigns to fuel fraction
`1/2` for the (UO2, CO2) pair. -/
def c4_core : ℝ := 0.16271 * (1 / 2 : ℝ) ^ (-0.8515 : ℝ)

/-- A `Flow` state for the (UO2, CO2) pair whose fluid properties are chosen,
relative to `c4_core`, so that the design run completes with the pressure
constraint already satisfied. -/
def c4_raw : Flow :=
  { base_flow with
    fuel := "UO2"
    coolant := "CO2"
    r_channel := 1
    AR := 8000 / c4_core
    fps := { m_dot := 250 * Real.pi * c4_core ^ 2, rho := 1, mu := 1, k_cool := 1,
             Pr := 1, T := 900, dp_limit := 100000000 } }

/-- A minimizer run whose last (and only) objective evaluation is at fuel
fraction `1/2`. -/
def c4_run : MinimizerRun := ⟨[(1 / 2 : ℝ)], true⟩

/-- The state after `constrain_radius` inside the objective evaluation at
fuel fraction `1/2`. -/
def c4_b : Flow := { c4_raw with fuel_frac := 1 / 2, core_r := c4_core }

/-- The `Flow` state after `find_n_channels` on `c4_raw` with run `c4_run`:
the last objective evaluation's side effects. -/
def c4_s1 : Flow := ((c4_b.set_geom).characterize_flow).get_q_per_channel

/-- The final state of the completed design run on `c4_raw`. -/
def c4_final : Flow := (c4_s1.calc_dp).calc_reactor_mass

/-- `base_flow` with only `N_channels` changed. -/
def c2_t : Flow := { base_flow with N_channels := 42 }

/-- `base_flow` with only the (never read) `mass` field changed. -/
def c2_b : Flow := { base_flow with mass := 5 }

end

/-- Convex-combination helper: for `t ∈ [0,1]`, the blend `a + t*(b-a)` lies
inclusively between `a` and `b`. -/
theorem blend_between (a b t : ℝ) (h0 : 0 ≤ t) (h1 : t ≤ 1) :
    min a b ≤ a + t * (b - a) ∧ a + t * (b - a) ≤ max a b := by
  rcases le_total a b with h | h
  · rw [min_eq_left h, max_eq_right h]
    constructor <;> nlinarith
  · rw [min_eq_right h, max_eq_left h]
    constructor <;> nlinarith

/-- Claim C5: for every `Pr > 0`, `LD > 0`, `rr ≥ 0`, `pipeflow_nd` at
`Re = 3000` returns exactly the turbulent values (`Nu_T = Nu_H =` the
Nusselt number of `pipeflow_turbulent 3000`, same `f`), and at `Re = 2300`
returns exactly the triple of `pipeflow_laminar 2300`. -/
theorem pipeflow_nd_regime_continuity (Pr LD rr : ℝ)
    (hPr : 0 < Pr) (hLD : 0 < LD) (hrr : 0 ≤ rr) :
    pipeflow_nd 3000 Pr LD rr =
      ((pipeflow_turbulent 3000 Pr LD rr).1, (pipeflow_turbulent 3000 Pr LD rr).1,
        (pipeflow_turbulent 3000 Pr LD rr).2) ∧
    pipeflow_nd 2300 Pr LD rr = pipeflow_laminar 2300 Pr LD rr := by
  constructor
  · rw [pipeflow_nd, if_neg (by norm_num : ¬ (3000:ℝ) > 3000),
      if_neg (by norm_num : ¬ (3000:ℝ) < 2300)]
    simp only [Prod.mk.injEq]
    refine ⟨by ring, by ring, by ring⟩
  · rw [pipeflow_nd, if_neg (by norm_num : ¬ (2300:ℝ) > 3000),
      if_neg (by norm_num : ¬ (2300:ℝ) < 2300)]
    rw [Prod.ext_iff, Prod.ext_iff]
    refine ⟨by simp only; ring, by simp only; ring, by simp only; ring⟩

/-- Witness for C5 at `Pr = 1`, `LD = 1`, `rr = 0`. -/
theorem pipeflow_nd_regime_continuity_witness :
    (0:ℝ) < 1 ∧ (0:ℝ) ≤ 0 ∧
    (pipeflow_nd 3000 1 1 0 =
      ((pipeflow_turbulent 3000 1 1 0).1, (pipeflow_turbulent 3000 1 1 0).1,
        (pipeflow_turbulent 3000 1 1 0).2) ∧
     pipeflow_nd 2300 1 1 0 = pipeflow_laminar 2300 1 1 0) :=
  ⟨by norm_num, le_refl 0,
    pipeflow_nd_regime_continuity 1 1 0 (by norm_num) (by norm_num) (le_refl 0)⟩

/-- Claim C6: for `2300 < Re < 3000` and `Pr > 0`, `LD > 0`, `rr ≥ 0`, each
of `Nu_T`, `Nu_H`, `f` returned by `pipeflow_nd` lies inclusively between the
corresponding laminar value at `Re = 2300` and turbulent value at `Re = 3000`. -/
theorem pipeflow_nd_blend_between_endpoints (Re Pr LD rr : ℝ)
    (hlo : 2300 < Re) (hhi : Re < 3000) (hPr : 0 < Pr) (hLD : 0 < LD) (hrr : 0 ≤ rr) :
    (min (pipeflow_laminar 2300 Pr LD rr).1 (pipeflow_turbulent 3000 Pr LD rr).1 ≤
        (pipeflow_nd Re Pr LD rr).1 ∧
      (pipeflow_nd Re Pr LD rr).1 ≤
        max (pipeflow_laminar 2300 Pr LD rr).1 (pipeflow_turbulent 3000 Pr LD rr).1) ∧
    (min (pipeflow_laminar 2300 Pr LD rr).2.1 (pipeflow_turbulent 3000 Pr LD rr).1 ≤
        (pipeflow_nd Re Pr LD rr).2.1 ∧
      (pipeflow_nd Re Pr LD rr).2.1 ≤
        max (pipeflow_laminar 2300 Pr LD rr).2.1 (pipeflow_turbulent 3000 Pr LD rr).1) ∧
    (min (pipeflow_laminar 2300 Pr LD rr).2.2 (pipeflow_turbulent 3000 Pr LD rr).2 ≤
        (pipeflow_nd Re Pr LD rr).2.2 ∧
      (pipeflow_nd Re Pr LD rr).2.2 ≤
        max (pipeflow_laminar 2300 Pr LD rr).2.2 (pipeflow_turbulent 3000 Pr LD rr).2) := by
  have ht0 : (0:ℝ) ≤ (Re - 2300) / (3000 - 2300) := by
    apply div_nonneg <;> linarith
  have ht1 : (Re - 2300) / (3000 - 2300) ≤ 1 := by
    rw [div_le_one (by norm_num : (0:ℝ) < 3000 - 2300)]
    linarith
  rw [pipeflow_nd, if_neg (by linarith : ¬ Re > 3000), if_neg (by linarith : ¬ Re < 2300)]
  exact ⟨blend_between _ _ _ ht0 ht1, blend_between _ _ _ ht0 ht1,
    blend_between _ _ _ ht0 ht1⟩

/-- Witness for C6 at `Re = 2650`, `Pr = 1`, `LD = 1`, `rr = 0`. -/
theorem pipeflow_nd_blend_between_endpoints_witness :
    (2300:ℝ) < 2650 ∧ (2650:ℝ) < 3000 ∧
    (min (pipeflow_laminar 2300 1 1 0).2.2 (pipeflow_turbulent 3000 1 1 0).2 ≤
        (pipeflow_nd 2650 1 1 0).2.2 ∧
      (pipeflow_nd 2650 1 1 0).2.2 ≤
        max (pipeflow_laminar 2300 1 1 0).2.2 (pipeflow_turbulent 3000 1 1 0).2) :=
  ⟨by norm_num, by norm_num,
    (pipeflow_nd_blend_between_endpoints 2650 1 1 0 (by norm_num) (by norm_num)
      (by norm_num) (by norm_num) (le_refl 0)).2.2⟩

/-- Claim C7: in `pipeflow_turbulent`, for `Re > 1`, `LD > 0`: when
`Pr < 0.1` the Nusselt number is the Notter-Sleicher low-Pr value times the
entrance factor; when `0.1 ≤ Pr < 0.5` it is the linear blend
`Nu_lp + (Pr - 0.1)*(Nu_Gnielinski - Nu_lp)/0.4` times the entrance factor;
and at the boundary `Pr = 0.1` the two branches agree. -/
theorem pipeflow_turbulent_low_pr_branches (Re Pr LD rr : ℝ)
    (hRe : 1 < Re) (hLD : 0 < LD) :
    (Pr < 0.1 →
      (pipeflow_turbulent Re Pr LD rr).1 = nusselt_low_pr Re Pr * entrance_factor LD) ∧
    (0.1 ≤ Pr → Pr < 0.5 →
      (pipeflow_turbulent Re Pr LD rr).1 =
        (nusselt_low_pr Re Pr +
          (Pr - 0.1) * (nusselt_gnielinski Re Pr (f_fd_turbulent Re rr) -
            nusselt_low_pr Re Pr) / 0.4) * entrance_factor LD) ∧
    (pipeflow_turbulent Re (0.1:ℝ) LD rr).1 = nusselt_low_pr Re 0.1 * entrance_factor LD := by
  refine ⟨?_, ?_, ?_⟩
  · intro h
    rw [pipeflow_turbulent]
    rw [if_pos (by rw [show (0.5:ℝ) = 1/2 by norm_num]; norm_num at h ⊢; linarith), if_pos h]
  · intro h1 h2
    rw [pipeflow_turbulent]
    rw [if_pos h2, if_neg (not_lt.mpr h1)]
  · rw [pipeflow_turbulent]
    rw [if_pos (by norm_num : (0.1:ℝ) < 0.5), if_neg (by norm_num : ¬ (0.1:ℝ) < 0.1)]
    ring

/-- Witness for C7 at `Re = 5000`, `Pr = 0.05`, `LD = 1`, `rr = 0`. -/
theorem pipeflow_turbulent_low_pr_branches_witness :
    (1:ℝ) < 5000 ∧ (0.05:ℝ) < 0.1 ∧
    (pipeflow_turbulent 5000 0.05 1 0).1 = nusselt_low_pr 5000 0.05 * entrance_factor 1 :=
  ⟨by norm_num, by norm_num,
    (pipeflow_turbulent_low_pr_branches 5000 0.05 1 0 (by norm_num) (by norm_num)).1
      (by norm_num)⟩

/-- Claim C8: in `pipeflow_turbulent`, for `Re > 1`, `LD > 0`, the friction
factor is the smooth-tube fit (times the entrance factor) whenever the
relative roughness is at most `1e-5`, and is the Offor-Alabi correlation (a
function of `Re` and the relative roughness only) whenever it exceeds `1e-5`:
the formula switch is exactly at relative roughness `= 1e-5`. -/
theorem pipeflow_turbulent_roughness_switch (Re Pr LD rr : ℝ)
    (hRe : 1 < Re) (hLD : 0 < LD) :
    (rr ≤ 1e-5 →
      (pipeflow_turbulent Re Pr LD rr).2 = f_fd_smooth Re * entrance_factor LD) ∧
    (rr > 1e-5 →
      (pipeflow_turbulent Re Pr LD rr).2 = f_fd_offor_alabi Re rr * entrance_factor LD) := by
  constructor
  · intro h
    rw [pipeflow_turbulent, f_fd_turbulent, if_neg (not_lt.mpr h)]
  · intro h
    rw [pipeflow_turbulent, f_fd_turbulent, if_pos h]

/-- Witness for C8 at `Re = 5000`, `Pr = 1`, `LD = 1`, `rr = 1e-5`. -/
theorem pipeflow_turbulent_roughness_switch_witness :
    (1:ℝ) < 5000 ∧ (1e-5:ℝ) ≤ 1e-5 ∧
    (pipeflow_turbulent 5000 1 1 1e-5).2 = f_fd_smooth 5000 * entrance_factor 1 :=
  ⟨by norm_num, le_refl _,
    (pipeflow_turbulent_roughness_switch 5000 1 1 1e-5 (by norm_num) (by norm_num)).1
      (le_refl _)⟩

/-- Claim C9: for every `Flow` state with `core_r > 0`, `0 < fuel_frac < 1`,
`r_channel > 0`, `AR > 0`, after `set_geom`: `A_core = π·core_r²`,
`A_flow = (1-fuel_frac)·A_core`, `A_fuel = fuel_frac·A_core` (so
`A_flow + A_fuel = A_core`), `L = AR·core_r`, `D_e = 2·r_channel` exactly,
and `N_channels = A_flow / (π·r_channel²)`. -/
theorem set_geom_geometry (s : Flow)
    (hcr : 0 < s.core_r) (hf0 : 0 < s.fuel_frac) (hf1 : s.fuel_frac < 1)
    (hrc : 0 < s.r_channel) (hAR : 0 < s.AR) :
    (s.set_geom).A_core = Real.pi * s.core_r ^ 2 ∧
    (s.set_geom).A_flow = (1 - s.fuel_frac) * (s.set_geom).A_core ∧
    (s.set_geom).A_fuel = s.fuel_frac * (s.set_geom).A_core ∧
    (s.set_geom).A_flow + (s.set_geom).A_fuel = (s.set_geom).A_core ∧
    (s.set_geom).L = s.AR * s.core_r ∧
    (s.set_geom).D_e = 2 * s.r_channel ∧
    (s.set_geom).N_channels = (s.set_geom).A_flow / (Real.pi * s.r_channel ^ 2) := by
  refine ⟨?_, ?_, ?_, ?_, ?_, ?_, ?_⟩ <;>
    simp only [Flow.set_geom] <;> ring

/-- Witness for C9 at the concrete state `base_flow`. -/
theorem set_geom_geometry_witness :
    (0 < base_flow.core_r ∧ 0 < base_flow.fuel_frac ∧ base_flow.fuel_frac < 1 ∧
      0 < base_flow.r_channel ∧ 0 < base_flow.AR) ∧
    ((base_flow.set_geom).A_core = Real.pi * base_flow.core_r ^ 2 ∧
     (base_flow.set_geom).A_flow = (1 - base_flow.fuel_frac) * (base_flow.set_geom).A_core ∧
     (base_flow.set_geom).A_fuel = base_flow.fuel_frac * (base_flow.set_geom).A_core ∧
     (base_flow.set_geom).A_flow + (base_flow.set_geom).A_fuel = (base_flow.set_geom).A_core ∧
     (base_flow.set_geom).L = base_flow.AR * base_flow.core_r ∧
     (base_flow.set_geom).D_e = 2 * base_flow.r_channel ∧
     (base_flow.set_geom).N_channels =
       (base_flow.set_geom).A_flow / (Real.pi * base_flow.r_channel ^ 2)) :=
  ⟨⟨by norm_num [base_flow], by norm_num [base_flow], by norm_num [base_flow],
     by norm_num [base_flow], by norm_num [base_flow]⟩,
   set_geom_geometry base_flow (by norm_num [base_flow]) (by norm_num [base_flow])
     (by norm_num [base_flow]) (by norm_num [base_flow]) (by norm_num [base_flow])⟩

/-- Claim C10: for every state with `fuel_frac > 0`, `constrain_radius` sets
`core_r = a · fuel_frac ^ b` with `(a, b)` from the fixed table keyed by the
(fuel, coolant) pair for each of the four supported pairs, and fails with a
lookup error (`none`, a Python `KeyError`) for any other pair. -/
theorem constrain_radius_coeff_table (s : Flow) (hf : 0 < s.fuel_frac) :
    (s.fuel = "UO2" → s.coolant = "CO2" →
      s.constrain_radius = some { s with core_r := 0.16271 * s.fuel_frac ^ (-0.8515 : ℝ) }) ∧
    (s.fuel = "UO2" → s.coolant = "H2O" →
      s.constrain_radius = some { s with core_r := 0.1706 * s.fuel_frac ^ (-0.61361 : ℝ) }) ∧
    (s.fuel = "UW" → s.coolant = "CO2" →
      s.constrain_radius = some { s with core_r := 0.15385 * s.fuel_frac ^ (-0.8309 : ℝ) }) ∧
    (s.fuel = "UW" → s.coolant = "H2O" →
      s.constrain_radius = some { s with core_r := 0.16270 * s.fuel_frac ^ (-0.6487 : ℝ) }) ∧
    (¬ ((s.fuel = "UO2" ∨ s.fuel = "UW") ∧ (s.coolant = "CO2" ∨ s.coolant = "H2O")) →
      s.constrain_radius = none) := by
  refine ⟨?_, ?_, ?_, ?_, ?_⟩
  · intro h1 h2
    rw [Flow.constrain_radius, coeffs, h1, h2, if_pos rfl, if_pos rfl]
  · intro h1 h2
    rw [Flow.constrain_radius, coeffs, h1, h2, if_pos rfl,
      if_neg (by decide : ¬ ("H2O" : String) = "CO2"), if_pos rfl]
  · intro h1 h2
    rw [Flow.constrain_radius, coeffs, h1, h2,
      if_neg (by decide : ¬ ("UW" : String) = "UO2"), if_pos rfl, if_pos rfl]
  · intro h1 h2
    rw [Flow.constrain_radius, coeffs, h1, h2,
      if_neg (by decide : ¬ ("UW" : String) = "UO2"), if_pos rfl,
      if_neg (by decide : ¬ ("H2O" : String) = "CO2"), if_pos rfl]
  · intro h
    rw [Flow.constrain_radius, coeffs]
    by_cases h1 : s.fuel = "UO2"
    · rw [if_pos h1]
      by_cases h2 : s.coolant = "CO2"
      · exact absurd ⟨Or.inl h1, Or.inl h2⟩ h
      · rw [if_neg h2]
        by_cases h3 : s.coolant = "H2O"
        · exact absurd ⟨Or.inl h1, Or.inr h3⟩ h
        · rw [if_neg h3]
    · rw [if_neg h1]
      by_cases h4 : s.fuel = "UW"
      · rw [if_pos h4]
        by_cases h2 : s.coolant = "CO2"
        · exact absurd ⟨Or.inr h4, Or.inl h2⟩ h
        · rw [if_neg h2]
          by_cases h3 : s.coolant = "H2O"
          · exact absurd ⟨Or.inr h4, Or.inr h3⟩ h
          · rw [if_neg h3]
      · rw [if_neg h4]

/-- Witness for C10 at `base_flow` (fuel `UW`, coolant `CO2`). -/
theorem constrain_radius_coeff_table_witness :
    0 < base_flow.fuel_frac ∧
    base_flow.constrain_radius =
      some { base_flow with core_r := 0.15385 * base_flow.fuel_frac ^ (-0.8309 : ℝ) } :=
  ⟨by norm_num [base_flow],
   (constrain_radius_coeff_table base_flow (by norm_num [base_flow])).2.2.1 rfl rfl⟩

/-- Claim C3 is refuted on the code: `find_n_channels` binds the minimizer
result to `res` and discards it, so a non-converged minimizer run (`success =
false`) produces exactly the same `oned_flow_modeling` outcome as a converged
one — non-convergence is not surfaced distinctly from success, and the
best-effort fuel fraction of the last objective evaluation is used silently.
This counterexample exhibits the two runs at a concrete state. -/
theorem nonconvergence_not_surfaced_cex :
    oned_flow_modeling ⟨[3 / 4], false⟩ 5 base_flow =
      oned_flow_modeling ⟨[3 / 4], true⟩ 5 base_flow := rfl

/-- Claim C3 amended: the outcome of `oned_flow_modeling` is entirely
independent of the minimizer's reported convergence flag — for the same trial
evaluations, a failed and a successful minimizer run yield identical results,
so non-convergence is never surfaced to the caller. -/
theorem oned_flow_modeling_ignores_success (ts : List ℝ) (b b' : Bool) (n : ℕ) (s : Flow) :
    oned_flow_modeling ⟨ts, b⟩ n s = oned_flow_modeling ⟨ts, b'⟩ n s := rfl

theorem sqrt_four_eq : Real.sqrt 4 = 2 := by
  rw [show (4 : ℝ) = 2 ^ 2 by norm_num]
  exact Real.sqrt_sq (by norm_num)

/-- At `Re = 1000` the dispatcher takes the laminar branch. -/
theorem pipeflow_nd_1000_eq : pipeflow_nd 1000 1 4000 0 = pipeflow_laminar 1000 1 4000 0 := by
  rw [pipeflow_nd, if_neg (by norm_num : ¬ (1000 : ℝ) > 3000),
    if_pos (by norm_num : (1000 : ℝ) < 2300)]

/-- Exact bounds on the laminar friction factor at `Re = 1000`, `LD = 4000`
(there `x = LD/Re = 4`, so the Churchill blend is rational). -/
theorem f_1000_bounds :
    0.06 < (pipeflow_nd 1000 1 4000 0).2.2 ∧ (pipeflow_nd 1000 1 4000 0).2.2 < 0.07 := by
  rw [pipeflow_nd_1000_eq, pipeflow_laminar]
  simp only
  rw [show (4000 : ℝ) / 1000 = 4 by norm_num, sqrt_four_eq]
  norm_num

/-- The outputs of `characterize_flow` followed by `calc_dp`, written out as
functions of the fields the two methods actually read (note `N_channels` is
not among them). -/
theorem char_calc_dp_outputs (s : Flow) :
    ((s.characterize_flow).calc_dp).v = s.fps.m_dot / s.A_flow / s.fps.rho ∧
    ((s.characterize_flow).calc_dp).Re =
      s.fps.rho * (s.fps.m_dot / s.A_flow / s.fps.rho) * s.D_e / s.fps.mu ∧
    ((s.characterize_flow).calc_dp).f =
      (pipeflow_nd (s.fps.rho * (s.fps.m_dot / s.A_flow / s.fps.rho) * s.D_e / s.fps.mu)
        s.fps.Pr s.LD (s.clad_rough / (s.r_channel * 2))).2.2 ∧
    ((s.characterize_flow).calc_dp).Nu =
      (pipeflow_nd (s.fps.rho * (s.fps.m_dot / s.A_flow / s.fps.rho) * s.D_e / s.fps.mu)
        s.fps.Pr s.LD (s.clad_rough / (s.r_channel * 2))).1 ∧
    ((s.characterize_flow).calc_dp).h_bar =
      (pipeflow_nd (s.fps.rho * (s.fps.m_dot / s.A_flow / s.fps.rho) * s.D_e / s.fps.mu)
        s.fps.Pr s.LD (s.clad_rough / (s.r_channel * 2))).1 * s.fps.k_cool / s.D_e ∧
    ((s.characterize_flow).calc_dp).dp =
      (pipeflow_nd (s.fps.rho * (s.fps.m_dot / s.A_flow / s.fps.rho) * s.D_e / s.fps.mu)
        s.fps.Pr s.LD (s.clad_rough / (s.r_channel * 2))).2.2 *
        s.L * s.fps.rho * (s.fps.m_dot / s.A_flow / s.fps.rho) *
        (s.fps.m_dot / s.A_flow / s.fps.rho) / (2 * s.D_e) :=
  ⟨rfl, rfl, rfl, rfl, rfl, rfl⟩

/-- Concrete geometry values after `set_geom` on `c1_raw`. -/
theorem c1_geom :
    (c1_raw.set_geom).A_flow = Real.pi / 200 ∧
    (c1_raw.set_geom).LD = 4000 ∧
    (c1_raw.set_geom).D_e = 1 / 100 ∧
    (c1_raw.set_geom).L = 40 := by
  refine ⟨?_, ?_, ?_, ?_⟩ <;>
    · simp only [Flow.set_geom, c1_raw, base_flow]
      norm_num
      try ring

/-- On `c1_state` the pressure drop computed by `calc_dp` is far above the
`dp_limit` of `10^6` Pa. -/
theorem c1_dp_gt : (c1_state.calc_dp).dp > 1000000 := by
  have hdp := (char_calc_dp_outputs c1_raw.set_geom).2.2.2.2.2
  obtain ⟨hA, hLD, hD, hL⟩ := c1_geom
  rw [hA, hLD, hD, hL] at hdp
  rw [show (c1_raw.set_geom).fps = c1_raw.fps from rfl] at hdp
  rw [show (c1_raw.set_geom).clad_rough = (0 : ℝ) from rfl] at hdp
  rw [show (c1_raw.set_geom).r_channel = (1 / 200 : ℝ) from rfl] at hdp
  rw [show c1_raw.fps.m_dot = 500 * Real.pi from rfl] at hdp
  rw [show c1_raw.fps.rho = (1 : ℝ) from rfl] at hdp
  rw [show c1_raw.fps.mu = (1 : ℝ) from rfl] at hdp
  rw [show c1_raw.fps.Pr = (1 : ℝ) from rfl] at hdp
  rw [show 500 * Real.pi / (Real.pi / 200) / 1 = (100000 : ℝ) by
    field_simp; ring] at hdp
  rw [show (1 : ℝ) * 100000 * (1 / 100) / 1 = 1000 by norm_num] at hdp
  rw [show (0 : ℝ) / (1 / 200 * 2) = 0 by norm_num] at hdp
  have hstate : (c1_state.calc_dp).dp = ((c1_raw.set_geom).characterize_flow).calc_dp.dp := rfl
  rw [hstate, hdp]
  have hf := f_1000_bounds.1
  rw [gt_iff_lt, show (2 : ℝ) * (1 / 100) = 1 / 50 by norm_num,
    lt_div_iff₀ (by norm_num : (0 : ℝ) < 1 / 50)]
  nlinarith [hf]

/-- The loop of `adjust_dp`, entered at a state produced by
`characterize_flow` then `calc_dp` with the pressure constraint violated,
never terminates: the body rewrites `N_channels`, but `characterize_flow`
and `calc_dp` never read it, so `dp` is reproduced unchanged forever. -/
theorem adjust_dp_loop_stuck (n : ℕ) :
    ∀ w : Flow,
      ((w.characterize_flow).calc_dp).dp > ((w.characterize_flow).calc_dp).fps.dp_limit →
      Flow.adjust_dp_loop n ((w.characterize_flow).calc_dp) = none := by
  induction n with
  | zero =>
    intro w h
    simp only [Flow.adjust_dp_loop, if_pos h]
  | succ n ih =>
    intro w h
    simp only [Flow.adjust_dp_loop, if_pos h]
    exact ih { (w.characterize_flow).calc_dp with
      N_channels := ((w.characterize_flow).calc_dp).get_dp_constrained_Nchannels } h

/-- Claim C1 is refuted on the code (code bug): `c1_raw` has valid positive
geometry and positive fluid properties; `c1_state` is that state after
`set_geom` and `characterize_flow`; its initial pressure drop exceeds
`dp_limit`, and then the `adjust_dp` loop never terminates (it returns `none`
for every iteration budget), because the loop body's `N_channels` update is
never read back by `characterize_flow`/`calc_dp`. -/
theorem c1_adjust_dp_diverges :
    (0 < c1_raw.core_r ∧ 0 < c1_raw.fuel_frac ∧ c1_raw.fuel_frac < 1 ∧
      0 < c1_raw.r_channel ∧ 0 < c1_raw.AR ∧
      0 < c1_raw.fps.m_dot ∧ 0 < c1_raw.fps.rho ∧ 0 < c1_raw.fps.mu ∧
      0 < c1_raw.fps.Pr ∧ 0 < c1_raw.fps.k_cool ∧ 0 < c1_raw.fps.dp_limit) ∧
    c1_state = (c1_raw.set_geom).characterize_flow ∧
    ∀ n : ℕ, Flow.adjust_dp n c1_state = none := by
  refine ⟨⟨by norm_num [c1_raw, base_flow], by norm_num [c1_raw, base_flow],
    by norm_num [c1_raw, base_flow], by norm_num [c1_raw, base_flow],
    by norm_num [c1_raw, base_flow],
    by show (0 : ℝ) < 500 * Real.pi; positivity,
    by norm_num [c1_raw], by norm_num [c1_raw], by norm_num [c1_raw],
    by norm_num [c1_raw], by norm_num [c1_raw]⟩, rfl, ?_⟩
  intro n
  rw [Flow.adjust_dp]
  exact adjust_dp_loop_stuck n c1_raw.set_geom c1_dp_gt

/-- Claim C2: two-run noninterference.  First part: two states identical
except in `N_channels` give identical `v`, `Re`, `f`, `Nu`, `h_bar`, `dp`
after `characterize_flow` then `calc_dp`.  Second part: on states produced
by `set_geom`, those outputs depend on the state only through the flow area,
the channel radius, `LD`, the cladding roughness, and the fluid properties —
never through `N_channels`. -/
theorem characterize_calc_dp_noninterference (s t a b : Flow) (x : ℝ)
    (hst : t = { s with N_channels := x })
    (hr : a.r_channel = b.r_channel) (hcl : a.clad_rough = b.clad_rough)
    (hfps : a.fps = b.fps)
    (hAf : (a.set_geom).A_flow = (b.set_geom).A_flow)
    (hLD : (a.set_geom).LD = (b.set_geom).LD) :
    (((t.characterize_flow).calc_dp).v = ((s.characterize_flow).calc_dp).v ∧
     ((t.characterize_flow).calc_dp).Re = ((s.characterize_flow).calc_dp).Re ∧
     ((t.characterize_flow).calc_dp).f = ((s.characterize_flow).calc_dp).f ∧
     ((t.characterize_flow).calc_dp).Nu = ((s.characterize_flow).calc_dp).Nu ∧
     ((t.characterize_flow).calc_dp).h_bar = ((s.characterize_flow).calc_dp).h_bar ∧
     ((t.characterize_flow).calc_dp).dp = ((s.characterize_flow).calc_dp).dp) ∧
    ((((a.set_geom).characterize_flow).calc_dp).v =
        (((b.set_geom).characterize_flow).calc_dp).v ∧
     (((a.set_geom).characterize_flow).calc_dp).Re =
        (((b.set_geom).characterize_flow).calc_dp).Re ∧
     (((a.set_geom).characterize_flow).calc_dp).f =
        (((b.set_geom).characterize_flow).calc_dp).f ∧
     (((a.set_geom).characterize_flow).calc_dp).Nu =
        (((b.set_geom).characterize_flow).calc_dp).Nu ∧
     (((a.set_geom).characterize_flow).calc_dp).h_bar =
        (((b.set_geom).characterize_flow).calc_dp).h_bar ∧
     (((a.set_geom).characterize_flow).calc_dp).dp =
        (((b.set_geom).characterize_flow).calc_dp).dp) := by
  subst hst
  refine ⟨⟨rfl, rfl, rfl, rfl, rfl, rfl⟩, ?_, ?_, ?_, ?_, ?_, ?_⟩
  · show a.fps.m_dot / (a.set_geom).A_flow / a.fps.rho
      = b.fps.m_dot / (b.set_geom).A_flow / b.fps.rho
    rw [hfps, hAf]
  · show a.fps.rho * (a.fps.m_dot / (a.set_geom).A_flow / a.fps.rho) *
        (2.0 * a.r_channel) / a.fps.mu
      = b.fps.rho * (b.fps.m_dot / (b.set_geom).A_flow / b.fps.rho) *
        (2.0 * b.r_channel) / b.fps.mu
    rw [hfps, hAf, hr]
  · show (pipeflow_nd (a.fps.rho * (a.fps.m_dot / (a.set_geom).A_flow / a.fps.rho) *
        (2.0 * a.r_channel) / a.fps.mu) a.fps.Pr ((a.set_geom).LD)
        (a.clad_rough / (a.r_channel * 2))).2.2
      = (pipeflow_nd (b.fps.rho * (b.fps.m_dot / (b.set_geom).A_flow / b.fps.rho) *
        (2.0 * b.r_channel) / b.fps.mu) b.fps.Pr ((b.set_geom).LD)
        (b.clad_rough / (b.r_channel * 2))).2.2
    rw [hfps, hAf, hr, hcl, hLD]
  · show (pipeflow_nd (a.fps.rho * (a.fps.m_dot / (a.set_geom).A_flow / a.fps.rho) *
        (2.0 * a.r_channel) / a.fps.mu) a.fps.Pr ((a.set_geom).LD)
        (a.clad_rough / (a.r_channel * 2))).1
      = (pipeflow_nd (b.fps.rho * (b.fps.m_dot / (b.set_geom).A_flow / b.fps.rho) *
        (2.0 * b.r_channel) / b.fps.mu) b.fps.Pr ((b.set_geom).LD)
        (b.clad_rough / (b.r_channel * 2))).1
    rw [hfps, hAf, hr, hcl, hLD]
  · show (pipeflow_nd (a.fps.rho * (a.fps.m_dot / (a.set_geom).A_flow / a.fps.rho) *
        (2.0 * a.r_channel) / a.fps.mu) a.fps.Pr ((a.set_geom).LD)
        (a.clad_rough / (a.r_channel * 2))).1 * a.fps.k_cool / (2.0 * a.r_channel)
      = (pipeflow_nd (b.fps.rho * (b.fps.m_dot / (b.set_geom).A_flow / b.fps.rho) *
        (2.0 * b.r_channel) / b.fps.mu) b.fps.Pr ((b.set_geom).LD)
        (b.clad_rough / (b.r_channel * 2))).1 * b.fps.k_cool / (2.0 * b.r_channel)
    rw [hfps, hAf, hr, hcl, hLD]
  · show (pipeflow_nd (a.fps.rho * (a.fps.m_dot / (a.set_geom).A_flow / a.fps.rho) *
        (2.0 * a.r_channel) / a.fps.mu) a.fps.Pr ((a.set_geom).LD)
        (a.clad_rough / (a.r_channel * 2))).2.2 * (a.AR * a.core_r) * a.fps.rho *
        (a.fps.m_dot / (a.set_geom).A_flow / a.fps.rho) *
        (a.fps.m_dot / (a.set_geom).A_flow / a.fps.rho) / (2 * (2.0 * a.r_channel))
      = (pipeflow_nd (b.fps.rho * (b.fps.m_dot / (b.set_geom).A_flow / b.fps.rho) *
        (2.0 * b.r_channel) / b.fps.mu) b.fps.Pr ((b.set_geom).LD)
        (b.clad_rough / (b.r_channel * 2))).2.2 * (b.AR * b.core_r) * b.fps.rho *
        (b.fps.m_dot / (b.set_geom).A_flow / b.fps.rho) *
        (b.fps.m_dot / (b.set_geom).A_flow / b.fps.rho) / (2 * (2.0 * b.r_channel))
    rcases eq_or_ne a.r_channel 0 with h0 | h0
    · rw [← hr, h0]
      norm_num
    · have hLD' : a.AR * a.core_r / (a.r_channel * 2) = b.AR * b.core_r / (b.r_channel * 2) :=
        hLD
      rw [← hr] at hLD'
      have h2 : a.r_channel * 2 ≠ 0 := by
        intro hc
        exact h0 (by linarith [mul_eq_zero.mp hc] : a.r_channel = 0)
      have hL : a.AR * a.core_r = b.AR * b.core_r := by
        field_simp [h2] at hLD'
        exact hLD'
      rw [hfps, hAf, hr, hcl, hLD, hL]

/-- Witness for C2: `base_flow` against `c2_t` (same state, `N_channels`
changed to 42), and `base_flow` against `c2_b` (same state, only the unread
`mass` field changed). -/
theorem characterize_calc_dp_noninterference_witness :
    c2_t = { base_flow with N_channels := 42 } ∧
    ((((c2_t.characterize_flow).calc_dp).v = ((base_flow.characterize_flow).calc_dp).v ∧
      ((c2_t.characterize_flow).calc_dp).Re = ((base_flow.characterize_flow).calc_dp).Re ∧
      ((c2_t.characterize_flow).calc_dp).f = ((base_flow.characterize_flow).calc_dp).f ∧
      ((c2_t.characterize_flow).calc_dp).Nu = ((base_flow.characterize_flow).calc_dp).Nu ∧
      ((c2_t.characterize_flow).calc_dp).h_bar =
        ((base_flow.characterize_flow).calc_dp).h_bar ∧
      ((c2_t.characterize_flow).calc_dp).dp = ((base_flow.characterize_flow).calc_dp).dp) ∧
     ((((base_flow.set_geom).characterize_flow).calc_dp).v =
        (((c2_b.set_geom).characterize_flow).calc_dp).v ∧
      (((base_flow.set_geom).characterize_flow).calc_dp).Re =
        (((c2_b.set_geom).characterize_flow).calc_dp).Re ∧
      (((base_flow.set_geom).characterize_flow).calc_dp).f =
        (((c2_b.set_geom).characterize_flow).calc_dp).f ∧
      (((base_flow.set_geom).characterize_flow).calc_dp).Nu =
        (((c2_b.set_geom).characterize_flow).calc_dp).Nu ∧
      (((base_flow.set_geom).characterize_flow).calc_dp).h_bar =
        (((c2_b.set_geom).characterize_flow).calc_dp).h_bar ∧
      (((base_flow.set_geom).characterize_flow).calc_dp).dp =
        (((c2_b.set_geom).characterize_flow).calc_dp).dp)) :=
  ⟨rfl, characterize_calc_dp_noninterference base_flow c2_t base_flow c2_b 42
    rfl rfl rfl rfl rfl rfl⟩

/-- If the pressure constraint already holds, the `adjust_dp` loop exits at
once with the state unchanged, for any iteration budget. -/
theorem adjust_dp_loop_sat (n : ℕ) (u : Flow) (h : ¬ u.dp > u.fps.dp_limit) :
    Flow.adjust_dp_loop n u = some u := by
  cases n <;> simp only [Flow.adjust_dp_loop, if_neg h]

/-- After a successful objective evaluation, `N_channels` holds the real
value `A_flow / (r_channel² · π)` assigned by `set_geom`. -/
theorem compute_Q_from_guess_N (w : Flow) (g : ℝ) (sq : Flow × ℝ)
    (h : w.compute_Q_from_guess g = some sq) :
    sq.1.N_channels = sq.1.A_flow / (sq.1.r_channel ^ 2 * Real.pi) := by
  rw [Flow.compute_Q_from_guess] at h
  cases hc : Flow.constrain_radius { w with fuel_frac := g } with
  | none =>
    rw [hc] at h
    exact absurd h (by simp)
  | some s1 =>
    rw [hc] at h
    simp only [Option.some.injEq] at h
    subst h
    rfl

/-- Through a nonempty trial sequence, the final state's `N_channels` is the
`set_geom` value. -/
theorem run_trials_N (gs : List ℝ) :
    ∀ s s1 : Flow, run_trials s gs = some s1 → gs ≠ [] →
      s1.N_channels = s1.A_flow / (s1.r_channel ^ 2 * Real.pi) := by
  induction gs with
  | nil =>
    intro s s1 h hne
    exact absurd rfl hne
  | cons g gs ih =>
    intro s s1 h hne
    rw [run_trials] at h
    cases hq : s.compute_Q_from_guess g with
    | none =>
      rw [hq] at h
      exact absurd h (by simp)
    | some sq =>
      rw [hq] at h
      simp only at h
      cases gs with
      | nil =>
        rw [run_trials] at h
        simp only [Option.some.injEq] at h
        subst h
        exact compute_Q_from_guess_N s g sq hq
      | cons g2 gs2 =>
        exact ih sq.1 s1 h (by simp)

theorem c4_core_pos : 0 < c4_core := by
  rw [c4_core]
  positivity

theorem c4_core_ne : c4_core ≠ 0 := ne_of_gt c4_core_pos

theorem c4_core_lt : c4_core < 0.32542 := by
  have h1 : ((1 : ℝ) / 2) ^ (-0.8515 : ℝ) = (2 : ℝ) ^ (0.8515 : ℝ) := by
    rw [show ((1 : ℝ) / 2) = (2 : ℝ)⁻¹ by norm_num,
      Real.inv_rpow (by norm_num : (0 : ℝ) ≤ 2),
      Real.rpow_neg (by norm_num : (0 : ℝ) ≤ 2), inv_inv]
  have h2 : (2 : ℝ) ^ (0.8515 : ℝ) < 2 := by
    have h := Real.rpow_lt_rpow_of_exponent_lt (by norm_num : (1 : ℝ) < 2)
      (by norm_num : (0.8515 : ℝ) < 1)
    rwa [Real.rpow_one] at h
  have h3 : 0 < (2 : ℝ) ^ (0.8515 : ℝ) :=
    Real.rpow_pos_of_pos (by norm_num) _
  rw [c4_core, h1]
  nlinarith [h2, h3]

/-- Concrete geometry values after `set_geom` on `c4_b`. -/
theorem c4_geom :
    (c4_b.set_geom).A_flow = Real.pi * c4_core ^ 2 / 2 ∧
    (c4_b.set_geom).LD = 4000 ∧
    (c4_b.set_geom).D_e = 2 ∧
    (c4_b.set_geom).L = 8000 := by
  refine ⟨?_, ?_, ?_, ?_⟩ <;>
    · simp only [Flow.set_geom, c4_b, c4_raw, base_flow]
      field_simp [c4_core_ne]
      try ring

/-- On the completed `c4` run the pressure constraint holds on entry to the
`adjust_dp` loop. -/
theorem c4_dp_ok : ¬ (c4_s1.calc_dp).dp > (c4_s1.calc_dp).fps.dp_limit := by
  have hdp := (char_calc_dp_outputs c4_b.set_geom).2.2.2.2.2
  obtain ⟨hA, hLD, hD, hL⟩ := c4_geom
  rw [hA, hLD, hD, hL] at hdp
  rw [show (c4_b.set_geom).fps = c4_raw.fps from rfl] at hdp
  rw [show (c4_b.set_geom).clad_rough = (0 : ℝ) from rfl] at hdp
  rw [show (c4_b.set_geom).r_channel = (1 : ℝ) from rfl] at hdp
  rw [show c4_raw.fps.m_dot = 250 * Real.pi * c4_core ^ 2 from rfl] at hdp
  rw [show c4_raw.fps.rho = (1 : ℝ) from rfl] at hdp
  rw [show c4_raw.fps.mu = (1 : ℝ) from rfl] at hdp
  rw [show c4_raw.fps.Pr = (1 : ℝ) from rfl] at hdp
  rw [show 250 * Real.pi * c4_core ^ 2 / (Real.pi * c4_core ^ 2 / 2) / 1 = (500 : ℝ) by
    field_simp [c4_core_ne]
    ring] at hdp
  rw [show (1 : ℝ) * 500 * 2 / 1 = 1000 by norm_num] at hdp
  rw [show (0 : ℝ) / (1 * 2) = 0 by norm_num] at hdp
  have hstate : (c4_s1.calc_dp).dp = ((c4_b.set_geom).characterize_flow).calc_dp.dp := rfl
  have hlim : (c4_s1.calc_dp).fps.dp_limit = (100000000 : ℝ) := rfl
  rw [gt_iff_lt, not_lt, hlim, hstate, hdp]
  have hf := f_1000_bounds.2
  rw [div_le_iff₀ (by norm_num : (0 : ℝ) < 2 * 2)]
  nlinarith [hf]

/-- Evaluating `find_n_channels` on the `c4` configuration. -/
theorem c4_find : find_n_channels c4_run c4_raw = some c4_s1 := by
  have hcon : Flow.constrain_radius { c4_raw with fuel_frac := (1 / 2 : ℝ) } = some c4_b := by
    rfl
  simp only [find_n_channels, c4_run, run_trials, Flow.compute_Q_from_guess, hcon, c4_s1]

/-- Claim C4 is refuted: this design run completes (the pressure constraint
holds on entry to `adjust_dp`, so the loop body never runs and no `ceil` is
taken), and the final `N_channels` is below 1 — not an integer ≥ 1. -/
theorem oned_final_N_channels_lt_one :
    oned_flow_modeling c4_run 1 c4_raw = some c4_final ∧ c4_final.N_channels < 1 := by
  constructor
  · simp only [oned_flow_modeling, c4_find, Flow.adjust_dp,
      adjust_dp_loop_sat 1 (c4_s1.calc_dp) c4_dp_ok]
    rfl
  · have hN : c4_final.N_channels = c4_core ^ 2 / 2 := by
      show c4_core ^ 2 * Real.pi * (1 - 1 / 2) / ((1 : ℝ) ^ 2 * Real.pi) = c4_core ^ 2 / 2
      field_simp
      ring
    rw [hN]
    nlinarith [c4_core_pos, c4_core_lt]

/-- Claim C4 amended: when the design run completes with the pressure
constraint already satisfied on entry to `adjust_dp` (so the loop body never
executes), the final `N_channels` is exactly the value the last `set_geom`
assigned — the real number `A_flow / (r_channel² · π)` — with no rounding to
an integer and no lower bound of 1. -/
theorem oned_N_channels_real_valued (run : MinimizerRun) (n : ℕ) (s s1 : Flow)
    (hfind : find_n_channels run s = some s1)
    (hdp : ¬ (s1.calc_dp).dp > (s1.calc_dp).fps.dp_limit) :
    oned_flow_modeling run n s = some ((s1.calc_dp).calc_reactor_mass) ∧
    ((s1.calc_dp).calc_reactor_mass).N_channels = s1.N_channels ∧
    (run.trials ≠ [] →
      s1.N_channels = s1.A_flow / (s1.r_channel ^ 2 * Real.pi)) := by
  refine ⟨?_, rfl, ?_⟩
  · simp only [oned_flow_modeling, hfind, Flow.adjust_dp,
      adjust_dp_loop_sat n (s1.calc_dp) hdp]
  · intro hne
    exact run_trials_N run.trials s s1 hfind hne

/-- Witness for the amended C4 at the concrete `c4` inputs. -/
theorem oned_N_channels_real_valued_witness :
    find_n_channels c4_run c4_raw = some c4_s1 ∧
    ¬ (c4_s1.calc_dp).dp > (c4_s1.calc_dp).fps.dp_limit ∧
    (oned_flow_modeling c4_run 1 c4_raw = some ((c4_s1.calc_dp).calc_reactor_mass) ∧
     ((c4_s1.calc_dp).calc_reactor_mass).N_channels = c4_s1.N_channels ∧
     (c4_run.trials ≠ [] →
       c4_s1.N_channels = c4_s1.A_flow / (c4_s1.r_channel ^ 2 * Real.pi))) :=
  ⟨c4_find, c4_dp_ok, oned_N_channels_real_valued c4_run 1 c4_raw c4_s1 c4_find c4_dp_ok⟩

end SCO2
